import Mathlib

/-!
A verification development for the DuckTrace repository.

The JavaScript entry point `src/ducktrace-mcp.js` is shallowly embedded here:
JSON/JavaScript values become the inductive type `JVal`, the script's control
flow becomes `ducktraceRun`, and the snapshot object written to
`~/.claude/ducktrace/current.json` becomes the structure `TuiData`.  The HTML
generator helpers shipped with the skill documentation (`columnarToObjects`
and the template replacement chain of `explain-chart-mcp.js` / `generate.js`)
are modelled over the same value type.  Components of the repository that live
in the Rust TUI (`ducktrace-rs`, absent from the source tree) are modelled
from the specification; their doc comments say so explicitly.
-/

set_option maxHeartbeats 1600000

/-- JavaScript number values as they matter to this program: NaN, the two
infinities, and finite values idealised as rationals (IEEE-754 rounding is
not modelled; no claim in scope depends on it). -/
inductive JsNum where
  | nan
  | posInf
  | negInf
  | fin (q : ℚ)
deriving DecidableEq

/-- JSON/JavaScript values as manipulated by `ducktrace-mcp.js`.  `undef`
models the result of reading an absent object property (JavaScript
`undefined`); `obj` keeps fields in order, mirroring a parsed JSON object
(whose keys are unique after `JSON.parse`). -/
inductive JVal where
  | undef
  | null
  | bool (b : Bool)
  | num (n : JsNum)
  | str (s : String)
  | arr (elems : List JVal)
  | obj (fields : List (String × JVal))

/-- A parsed JSON object, as produced by `JSON.parse` on the config argument. -/
abbrev JObj := List (String × JVal)

/-- Property read `o[k]` on a parsed object: the field's value, or
`undefined` when the key is absent. -/
def jlookup (o : JObj) (k : String) : JVal :=
  match o.find? (fun p => p.1 == k) with
  | some p => p.2
  | none => JVal.undef

/-- JavaScript truthiness, as used by `if (!config[r])` and `a || b` in
`ducktrace-mcp.js`: `undefined`, `null`, `false`, `0`, `NaN` and the empty
string are falsy; every object and array is truthy. -/
def jsTruthy : JVal → Bool
  | JVal.undef => false
  | JVal.null => false
  | JVal.bool b => b
  | JVal.num n => if n = JsNum.nan ∨ n = JsNum.fin 0 then false else true
  | JVal.str s => !s.isEmpty
  | JVal.arr _ => true
  | JVal.obj _ => true

/-- JavaScript `a || b`: the left operand if truthy, otherwise the right. -/
def jsOr (a b : JVal) : JVal :=
  if jsTruthy a then a else b

/-- JavaScript whitespace as recognised by `trim` and numeric coercion
(space, tab, line feed, carriage return, form feed, vertical tab; wider
Unicode whitespace is not modelled — no claim depends on it). -/
def isJsWs (c : Char) : Bool :=
  c = ' ' || c = '\t' || c = '\n' || c = '\r'
    || c = Char.ofNat 12 || c = Char.ofNat 11

/-- JavaScript `s.trim()`, as a character list. -/
def jsTrim (s : String) : List Char :=
  ((s.data.dropWhile isJsWs).reverse.dropWhile isJsWs).reverse

/-- Value of a run of decimal digits. -/
def digitsVal (ds : List Char) : Nat :=
  ds.foldl (fun a c => a * 10 + (c.toNat - 48)) 0

/-- An optional leading sign; returns the sign and the remainder. -/
def parseSignOpt : List Char → Int × List Char
  | '+' :: rest => (1, rest)
  | '-' :: rest => (-1, rest)
  | cs => (1, cs)

/-- Ten to an integer power, as a rational. -/
def tenPow (e : Int) : ℚ :=
  if 0 ≤ e then (10 : ℚ) ^ e.toNat else 1 / (10 : ℚ) ^ (-e).toNat

/-- Longest decimal-mantissa prefix (digits, an optional dot, optional
fraction digits; or a dot followed by digits); `none` when no digit starts
the input. -/
def parseDecMantissa (cs : List Char) : Option (ℚ × List Char) :=
  let (ds, rest1) := cs.span Char.isDigit
  if ds.isEmpty then
    match rest1 with
    | '.' :: rest2 =>
      let (fs, rest3) := rest2.span Char.isDigit
      if fs.isEmpty then none
      else some ((digitsVal fs : ℚ) / (10 : ℚ) ^ fs.length, rest3)
    | _ => none
  else
    match rest1 with
    | '.' :: rest2 =>
      let (fs, rest3) := rest2.span Char.isDigit
      some ((digitsVal ds : ℚ) + (digitsVal fs : ℚ) / (10 : ℚ) ^ fs.length,
        rest3)
    | _ => some ((digitsVal ds : ℚ), rest1)

/-- An exponent part (`e` or `E`, optional sign, digits); `none` — consuming
nothing — when the exponent is absent or malformed. -/
def parseExpPart : List Char → Option (Int × List Char)
  | c :: rest =>
    if c = 'e' ∨ c = 'E' then
      let (sg, r1) := parseSignOpt rest
      let (es, r2) := r1.span Char.isDigit
      if es.isEmpty then none else some (sg * (digitsVal es : Int), r2)
    else none
  | [] => none

/-- Character-list prefix test. -/
def startsWithChars : List Char → List Char → Bool
  | [], _ => true
  | _ :: _, [] => false
  | p :: ps, c :: cs => p = c && startsWithChars ps cs

/-- Longest signed decimal-literal prefix (sign, then `Infinity` or a
mantissa with an optional exponent), as in the JavaScript string numeric
grammar; `none` when no literal starts the input. -/
def parseDecLit (cs : List Char) : Option (JsNum × List Char) :=
  let (sg, r0) := parseSignOpt cs
  if startsWithChars "Infinity".data r0 then
    some (if sg = 1 then JsNum.posInf else JsNum.negInf, r0.drop 8)
  else
    match parseDecMantissa r0 with
    | none => none
    | some (m, r1) =>
      match parseExpPart r1 with
      | some (e, r2) => some (JsNum.fin ((sg : ℚ) * m * tenPow e), r2)
      | none => some (JsNum.fin ((sg : ℚ) * m), r1)

/-- JavaScript `parseFloat` on a string: skip leading whitespace, read the
longest decimal-literal prefix, NaN when there is none. -/
def jsParseFloat (s : String) : JsNum :=
  match parseDecLit (s.data.dropWhile isJsWs) with
  | some (n, _) => n
  | none => JsNum.nan

/-- Hexadecimal digit value. -/
def hexVal (c : Char) : Option Nat :=
  if c.isDigit then some (c.toNat - 48)
  else if 'a' ≤ c ∧ c ≤ 'f' then some (c.toNat - 87)
  else if 'A' ≤ c ∧ c ≤ 'F' then some (c.toNat - 55)
  else none

/-- Digit value in a given base, up to 16. -/
def digitValIn (base : Nat) (c : Char) : Option Nat :=
  match hexVal c with
  | some d => if d < base then some d else none
  | none => none

/-- Value of a full digit string in a given base; `none` when empty or when
any character is not a digit of the base. -/
def radixVal (base : Nat) (cs : List Char) : Option Nat :=
  if cs.isEmpty then none
  else
    cs.foldl
      (fun acc c =>
        acc.bind (fun a => (digitValIn base c).map (fun d => a * base + d)))
      (some 0)

/-- A decimal literal that must consume the whole input, as `Number`
requires; NaN otherwise. -/
def decNumFull (cs : List Char) : JsNum :=
  match parseDecLit cs with
  | some (n, []) => n
  | _ => JsNum.nan

/-- JavaScript `Number` coercion of a string (the coercion `isNaN` applies
to its argument): trim whitespace, the empty string is zero, a `0x`/`0o`/
`0b` prefix reads the whole remainder in that base, otherwise the whole
input must be one signed decimal literal or `Infinity`. -/
def jsToNumber (s : String) : JsNum :=
  let cs := jsTrim s
  if cs.isEmpty then JsNum.fin 0
  else
    match cs with
    | '0' :: c :: rest =>
      if c = 'x' ∨ c = 'X' then
        match radixVal 16 rest with
        | some v => JsNum.fin (v : ℚ)
        | none => JsNum.nan
      else if c = 'o' ∨ c = 'O' then
        match radixVal 8 rest with
        | some v => JsNum.fin (v : ℚ)
        | none => JsNum.nan
      else if c = 'b' ∨ c = 'B' then
        match radixVal 2 rest with
        | some v => JsNum.fin (v : ℚ)
        | none => JsNum.nan
      else decNumFull cs
    | _ => decNumFull cs

/-- JavaScript `ToNumber` of an array (through `ToPrimitive`, which joins
the elements with commas and converts the resulting string): the empty
array is 0; a singleton converts its element (`null` and `undefined` join
as the empty string, a number round-trips through its decimal text, a
string or nested array converts recursively, a boolean or plain object
joins as non-numeric text, hence NaN); two or more elements always put a
comma into the joined string, which is NaN. -/
def arrToNum : List JVal → JsNum
  | [] => JsNum.fin 0
  | [JVal.undef] => JsNum.fin 0
  | [JVal.null] => JsNum.fin 0
  | [JVal.bool _] => JsNum.nan
  | [JVal.num n] => n
  | [JVal.str s] => jsToNumber s
  | [JVal.arr ys] => arrToNum ys
  | [JVal.obj _] => JsNum.nan
  | _ :: _ :: _ => JsNum.nan

/-- JavaScript `ToNumber` of a value, as used by the relational comparisons
`rows.length > MAX_ROWS` and `rows.length < MIN_ROWS`: `undefined` is NaN,
`null` is 0, booleans are 0 or 1, strings go through the string numeric
grammar, arrays through `ToPrimitive`, and a plain object stringifies to
non-numeric text, hence NaN. -/
def jsToNumValue : JVal → JsNum
  | JVal.undef => JsNum.nan
  | JVal.null => JsNum.fin 0
  | JVal.bool b => JsNum.fin (if b then 1 else 0)
  | JVal.num n => n
  | JVal.str s => jsToNumber s
  | JVal.arr xs => arrToNum xs
  | JVal.obj _ => JsNum.nan

/-- JavaScript `v > n` against a numeric right operand: the left side
coerces to a number and NaN makes the comparison false. -/
def jsGtNum (v : JVal) (n : ℚ) : Bool :=
  match jsToNumValue v with
  | JsNum.nan => false
  | JsNum.posInf => true
  | JsNum.negInf => false
  | JsNum.fin q => n < q

/-- JavaScript `v < n` against a numeric right operand. -/
def jsLtNum (v : JVal) (n : ℚ) : Bool :=
  match jsToNumValue v with
  | JsNum.nan => false
  | JsNum.posInf => false
  | JsNum.negInf => true
  | JsNum.fin q => q < n

/-- JavaScript property read `v.length`: the element count for arrays, the
character count for strings (UTF-16 length idealised as character count),
the `length` property for a plain object that carries one, and `undefined`
for the remaining primitives.  (On `null` and `undefined` the read would
throw, but those values are falsy and never pass the required-field check
that guards every `.length` read in the script.) -/
def jsGetLength : JVal → JVal
  | JVal.arr xs => JVal.num (JsNum.fin (xs.length : ℚ))
  | JVal.str s => JVal.num (JsNum.fin (s.length : ℚ))
  | JVal.obj fields => jlookup fields "length"
  | _ => JVal.undef

/-- Data limit from `ducktrace-mcp.js` line 40. -/
def MAX_ROWS : Nat := 50

/-- Data limit from `ducktrace-mcp.js` line 41. -/
def MIN_ROWS : Nat := 2

/-- The row-limit block of `ducktrace-mcp.js` (lines 68-78): when
`rows.length > MAX_ROWS`, record the original count, keep the first
`MAX_ROWS` entries via `rows.slice(0, MAX_ROWS)` and mark the status
`truncated`; otherwise pass the rows through with status `success` and no
recorded count.  `none` models the crash path: a value that answers a
length above the limit but is neither an array nor a string (for example
an object carrying a large `length` property) has no `slice` method, so
the call throws an uncaught TypeError and the process dies with exit code
1 before anything is written. -/
def applyRowLimits (rows : JVal) : Option (JVal × String × Option Nat) :=
  if jsGtNum (jsGetLength rows) (MAX_ROWS : ℚ) then
    match rows with
    | JVal.arr xs =>
      some (JVal.arr (xs.take MAX_ROWS), "truncated", some xs.length)
    | JVal.str s =>
      some (JVal.str (String.mk (s.data.take MAX_ROWS)), "truncated",
        some s.length)
    | _ => none
  else some (rows, "success", none)

/-- The row-limit outcome as consumed by the snapshot constructor.  On the
crash path the script never reaches the construction, so the default
branch of this totalisation is never consulted by `ducktraceRun`. -/
def rowLimitResult (config : JObj) : JVal × String × Option Nat :=
  (applyRowLimits (jlookup config "rows")).getD
    (jlookup config "rows", "success", none)

/-- The minimum-row warning condition of `ducktrace-mcp.js` lines 80-82,
evaluated on the (possibly truncated) rows value: `rows.length < MIN_ROWS`
with JavaScript coercion semantics (false when the length coerces to
NaN). -/
def minRowsWarned (rows : JVal) : Bool :=
  jsLtNum (jsGetLength rows) (MIN_ROWS : ℚ)

/-- The snapshot object written by `ducktrace-mcp.js` lines 95-114
(`tuiData`), field for field. -/
structure TuiData where
  title : JVal
  query : JVal
  xField : JVal
  yField : JVal
  columns : JVal
  rows : JVal
  chartType : JVal
  status : String
  truncatedFrom : Option Nat
  timestamp : Nat
  database : JVal
  drillDown : JVal
  lineage : JVal
  explainData : JVal

/-- Construction of the `tuiData` object from the parsed config
(`ducktrace-mcp.js` lines 68-114).  `now` is the value returned by
`Date.now()` at the moment of the write. -/
def tuiDataOf (config : JObj) (now : Nat) : TuiData :=
  { title := jlookup config "title"
    query := jlookup config "query"
    xField := jlookup config "x"
    yField := jlookup config "y"
    columns := jlookup config "columns"
    rows := (rowLimitResult config).1
    chartType := jsOr (jlookup config "chart_type") JVal.null
    status := (rowLimitResult config).2.1
    truncatedFrom := (rowLimitResult config).2.2
    timestamp := now
    database := jsOr (jlookup config "database") JVal.null
    drillDown := jsOr (jsOr (jlookup config "drillDown") (jlookup config "drill_down")) JVal.null
    lineage := jsOr (jlookup config "lineage") JVal.null
    explainData := jsOr (jsOr (jlookup config "explainData") (jlookup config "explain_data")) JVal.null }

/-- The same snapshot with its timestamp field normalised to zero; used to
speak about the clock-independent part of the written content. -/
def stripTimestamp (d : TuiData) : TuiData :=
  { d with timestamp := 0 }

/-- Required-field names, in the order the script checks them
(`ducktrace-mcp.js` line 60). -/
def requiredFields : List String :=
  ["title", "x", "y", "query", "columns", "rows"]

/-- The required-field loop of `ducktrace-mcp.js` lines 61-66: the first
required field whose value is falsy (the loop exits the process on the first
such field), or `none` when every required field is truthy. -/
def validateRequired (config : JObj) : Option String :=
  requiredFields.find? (fun r => !jsTruthy (jlookup config r))

/-- Outcome of one run of `ducktrace-mcp.js`.  `usageError` models a missing
argv entry, `parseError` a `JSON.parse` failure, `missingField` the error
exit of the required-field loop, `crashed` an uncaught TypeError at
`rows.slice` (a validated `rows` value that reports a length above
`MAX_ROWS` without being an array or a string); `completed` models reaching
the end of the script with the constructed snapshot, whether the
minimum-row warning was printed, and whether the data-file write succeeded
(`wrote = false` means the `catch` branch logged a note instead; the script
still finishes). -/
inductive RunOutcome where
  | usageError
  | parseError
  | missingField (name : String)
  | crashed
  | completed (data : TuiData) (warnedMinRows : Bool) (wrote : Bool)

/-- Process exit code of a run: the three error exits call
`process.exit(1)`, an uncaught exception also ends the process with exit
code 1; a completed run falls off the end of the script with exit code 0
(the write failure is caught and only logged). -/
def exitCode : RunOutcome → Nat
  | RunOutcome.usageError => 1
  | RunOutcome.parseError => 1
  | RunOutcome.missingField _ => 1
  | RunOutcome.crashed => 1
  | RunOutcome.completed _ _ _ => 0

/-- One run of `ducktrace-mcp.js`.  The argument is `none` when argv had no
config, `some none` when `JSON.parse` threw, and `some (some config)` for a
parsed object config.  `now` is `Date.now()` at the write; `writeFails`
says whether the filesystem operations in the `try` block (directory
creation or file write) throw. -/
def ducktraceRun (arg : Option (Option JObj)) (now : Nat) (writeFails : Bool) :
    RunOutcome :=
  match arg with
  | none => RunOutcome.usageError
  | some none => RunOutcome.parseError
  | some (some config) =>
    match validateRequired config with
    | some r => RunOutcome.missingField r
    | none =>
      match applyRowLimits (jlookup config "rows") with
      | none => RunOutcome.crashed
      | some _ =>
        RunOutcome.completed (tuiDataOf config now)
          (minRowsWarned (rowLimitResult config).1)
          (!writeFails)

/-- A 75-row `rows` value, used to exercise the truncation policy. -/
def rowsC1 : List JVal :=
  List.replicate 75 (JVal.arr [JVal.str "2025-01", JVal.str "100"])

/-- A complete, valid config carrying 75 rows. -/
def cfgC1 : JObj :=
  [("title", JVal.str "Revenue"), ("x", JVal.str "month"),
   ("y", JVal.str "revenue"), ("query", JVal.str "SELECT 1"),
   ("columns", JVal.arr [JVal.str "month", JVal.str "revenue"]),
   ("rows", JVal.arr rowsC1)]

/-- A valid config whose `rows` array is empty. -/
def cfgC4 : JObj :=
  [("title", JVal.str "Revenue"), ("x", JVal.str "month"),
   ("y", JVal.str "revenue"), ("query", JVal.str "SELECT 1"),
   ("columns", JVal.arr [JVal.str "month", JVal.str "revenue"]),
   ("rows", JVal.arr [])]

/-- A small valid config with two rows. -/
def cfgC6 : JObj :=
  [("title", JVal.str "Revenue"), ("x", JVal.str "month"),
   ("y", JVal.str "revenue"), ("query", JVal.str "SELECT 1"),
   ("columns", JVal.arr [JVal.str "month", JVal.str "revenue"]),
   ("rows", JVal.arr [JVal.arr [JVal.str "2025-01", JVal.str "100"],
                      JVal.arr [JVal.str "2025-02", JVal.str "200"]])]

/-- A valid config used to compare snapshots built at two clock values. -/
def cfgC7 : JObj :=
  [("title", JVal.str "Revenue"), ("x", JVal.str "month"),
   ("y", JVal.str "revenue"), ("query", JVal.str "SELECT 1"),
   ("columns", JVal.arr [JVal.str "month", JVal.str "revenue"]),
   ("rows", JVal.arr [JVal.arr [JVal.str "2025-01", JVal.str "100"],
                      JVal.arr [JVal.str "2025-02", JVal.str "200"]])]

/-- A config supplying the drill-down template only under its snake_case
key and no explain data at all. -/
def cfgC10 : JObj :=
  [("title", JVal.str "T"),
   ("drill_down", JVal.obj [("description", JVal.str "Show detail rows")])]

/-- Reads a string field value (the spec's shape for `title`, `x`, `y`,
`query`). -/
def getStr : JVal → Option String
  | JVal.str s => some s
  | _ => none

/-- Reads an array-of-strings value (the spec's shape for `columns`). -/
def getStrList : JVal → Option (List String)
  | JVal.arr xs => xs.mapM getStr
  | _ => none

/-- Reads one row as its ordered cells (the spec's shape for a row). -/
def getCells : JVal → Option (List JVal)
  | JVal.arr cs => some cs
  | _ => none

/-- Reads the `rows` value as an ordered list of rows. -/
def getRowList : JVal → Option (List (List JVal))
  | JVal.arr rs => rs.mapM getCells
  | _ => none

/-- Follows the spec's words (claim C3, spec section 6): a config is
well-shaped when each required field is present with the spec's shape:
`title`, `x`, `y`, `query` strings, `columns` an array of names, `rows` an
array of rows. -/
def configWellShaped (config : JObj) : Bool :=
  (getStr (jlookup config "title")).isSome
  && (getStr (jlookup config "x")).isSome
  && (getStr (jlookup config "y")).isSome
  && (getStr (jlookup config "query")).isSome
  && (getStrList (jlookup config "columns")).isSome
  && (getRowList (jlookup config "rows")).isSome

/-- A config supplying all six required fields where `columns` is a number
(truthy, but the wrong shape). -/
def cfgC3 : JObj :=
  [("title", JVal.str "T"), ("x", JVal.str "month"),
   ("y", JVal.str "revenue"), ("query", JVal.str "SELECT 1"),
   ("columns", JVal.num (JsNum.fin 5)),
   ("rows", JVal.arr [JVal.arr [JVal.str "2025-01", JVal.str "100"],
                      JVal.arr [JVal.str "2025-02", JVal.str "200"]])]

/-- A config missing the required `y` field. -/
def cfgC3w : JObj :=
  [("title", JVal.str "T"), ("x", JVal.str "month"),
   ("query", JVal.str "SELECT 1"),
   ("columns", JVal.arr [JVal.str "month"]),
   ("rows", JVal.arr [JVal.arr [JVal.str "2025-01"]])]

/-- A config whose `rows` value is an object carrying a large `length`
property: it passes required-field validation (objects are truthy) but the
script then dies at `rows.slice` with an uncaught TypeError. -/
def cfgC3crash : JObj :=
  [("title", JVal.str "T"), ("x", JVal.str "month"),
   ("y", JVal.str "revenue"), ("query", JVal.str "SELECT 1"),
   ("columns", JVal.arr [JVal.str "month"]),
   ("rows", JVal.obj [("length", JVal.num (JsNum.fin 75))])]

/-- Modelled from the spec: ingestion-time validation failures of the
Snapshot Model (spec section 7); the implementing code is in the Rust TUI
(`ducktrace-rs`), which is not under src/. -/
inductive ValidationError where
  | malformedInput
  | columnMismatch
deriving DecidableEq

/-- Chart kinds of the Snapshot Model. -/
inductive ChartKind where
  | line
  | bar
  | scatter
deriving DecidableEq

/-- Modelled from the spec: the drill-down template attached to a Snapshot
(spec section 3); the Rust TUI data model is not under src/. -/
structure DrillDownTemplate where
  description : String
  queryTemplate : String
  paramMapping : List (String × String)

/-- Modelled from the spec: the Snapshot produced by the TUI's
parse-and-classify step (spec section 3); the Rust TUI data model is not
under src/. -/
structure SnapshotModel where
  title : String
  x : String
  y : String
  query : String
  database : Option String
  columns : List String
  rows : List (List JVal)
  chartKind : ChartKind
  status : String
  truncatedFrom : Option Nat
  drillDown : Option DrillDownTemplate

/-- Modelled from the spec: a value that "parses as a date/timestamp" for
chart-kind inference — shaped like an ISO date (four digits, a dash, two
digits, optionally more). -/
def looksLikeDate (s : String) : Bool :=
  match s.data with
  | a :: b :: c :: d :: e :: f :: g :: _ =>
    a.isDigit && b.isDigit && c.isDigit && d.isDigit && (e = '-')
      && f.isDigit && g.isDigit
  | _ => false

/-- A cell holding a date-shaped string. -/
def isDateCell : JVal → Bool
  | JVal.str s => looksLikeDate s
  | _ => false

/-- A numeric cell. -/
def isNumCell : JVal → Bool
  | JVal.num _ => true
  | _ => false

/-- The cell values of the named column, in row order. -/
def colValues (cols : List String) (rws : List (List JVal)) (name : String) :
    List JVal :=
  match cols.findIdx? (fun c => c == name) with
  | some i => rws.filterMap (fun r => r.get? i)
  | none => []

/-- Modelled from the spec: chart-kind inference (spec section 4.1) — all
x-values dates gives `line`, else numeric y with non-numeric x gives `bar`,
else numeric x and y gives `scatter`, else `bar`. -/
def inferChartKind (cols : List String) (rws : List (List JVal))
    (x y : String) : ChartKind :=
  let xs := colValues cols rws x
  let ys := colValues cols rws y
  if xs.all isDateCell then ChartKind.line
  else if ys.all isNumCell && !(xs.all isNumCell) then ChartKind.bar
  else if xs.all isNumCell && ys.all isNumCell then ChartKind.scatter
  else ChartKind.bar

/-- An explicitly supplied chart kind, when recognised. -/
def explicitChartKind : Option String → Option ChartKind
  | some "line" => some ChartKind.line
  | some "bar" => some ChartKind.bar
  | some "scatter" => some ChartKind.scatter
  | _ => none

/-- The six required fields of the input schema, read with their spec
shapes; `none` when any is absent or ill-shaped. -/
def extractRequired (fields : JObj) :
    Option (String × String × String × String × List String ×
      List (List JVal)) := do
  let t ← getStr (jlookup fields "title")
  let x ← getStr (jlookup fields "x")
  let y ← getStr (jlookup fields "y")
  let q ← getStr (jlookup fields "query")
  let cols ← getStrList (jlookup fields "columns")
  let rws ← getRowList (jlookup fields "rows")
  pure (t, x, y, q, cols, rws)

/-- A `param_mapping` object read as name-to-column pairs. -/
def getParamMapping : JVal → List (String × String)
  | JVal.obj fs => fs.filterMap (fun p => (getStr p.2).map (fun v => (p.1, v)))
  | _ => []

/-- An optional drill-down template read from the input; ill-shaped values
are treated as absent. -/
def getDrillDown : JVal → Option DrillDownTemplate
  | JVal.obj fs =>
    match getStr (jlookup fs "description"),
        getStr (jlookup fs "query_template") with
    | some d, some qt =>
      some { description := d, queryTemplate := qt,
             paramMapping := getParamMapping (jlookup fs "param_mapping") }
    | _, _ => none
  | _ => none

/-- Modelled from the spec: `parse_and_classify` of the Snapshot Model
(spec section 4.1).  The implementing code lives in the Rust TUI
(`ducktrace-rs/src/data`), which is not under src/; this definition follows
the spec's words: `MalformedInput` when a required field is absent or of
the wrong shape, then `ColumnMismatch` when any row's cell count differs
from the column count, then row truncation and chart-kind classification. -/
def parseAndClassify (v : JVal) : Except ValidationError SnapshotModel :=
  match v with
  | JVal.obj fields =>
    match extractRequired fields with
    | none => Except.error ValidationError.malformedInput
    | some (t, x, y, q, cols, rws) =>
      if rws.any (fun r => r.length != cols.length) then
        Except.error ValidationError.columnMismatch
      else
        Except.ok
          { title := t, x := x, y := y, query := q,
            database := getStr (jlookup fields "database"),
            columns := cols,
            rows := rws.take MAX_ROWS,
            chartKind :=
              match explicitChartKind (getStr (jlookup fields "chart_type")) with
              | some k => k
              | none => inferChartKind cols rws x y,
            status := if MAX_ROWS < rws.length then "truncated" else "success",
            truncatedFrom :=
              if MAX_ROWS < rws.length then some rws.length else none,
            drillDown := getDrillDown (jlookup fields "drill_down") }
  | _ => Except.error ValidationError.malformedInput

/-- A well-shaped input whose single row has one cell against two columns. -/
def fieldsC2 : JObj :=
  [("title", JVal.str "T"), ("x", JVal.str "month"),
   ("y", JVal.str "revenue"), ("query", JVal.str "SELECT 1"),
   ("columns", JVal.arr [JVal.str "month", JVal.str "revenue"]),
   ("rows", JVal.arr [JVal.arr [JVal.str "2025-01"]])]

/-- The left-brace character. -/
def lbr : Char := Char.ofNat 123

/-- The right-brace character. -/
def rbr : Char := Char.ofNat 125

/-- The single-quote character. -/
def sqc : Char := Char.ofNat 39

/-- Modelled from the spec: drill-down-time failures (spec section 7); the
Drill-Down Executor lives in the Rust TUI (`ducktrace-rs/src/db.rs`), which
is not under src/. -/
inductive DrillDownError where
  | unresolvedPlaceholder (name : String)
  | backendFailure (msg : String)
deriving DecidableEq

/-- Modelled from the spec: resolution of one placeholder name — the
literal `database` value for the name `database`, otherwise the selected
row's cell at the column named in `param_mapping`; a missing mapping entry
or a column absent from the row is an `UnresolvedPlaceholder` failure
(spec section 4.4). -/
def resolveName (mapping : List (String × String)) (database : String)
    (selectedRow : List (String × String)) (name : List Char) :
    Except DrillDownError (List Char) :=
  if String.mk name = "database" then Except.ok database.data
  else
    match mapping.find? (fun p => p.1 == String.mk name) with
    | none =>
      Except.error (DrillDownError.unresolvedPlaceholder (String.mk name))
    | some p =>
      match selectedRow.find? (fun c => c.1 == p.2) with
      | none =>
        Except.error (DrillDownError.unresolvedPlaceholder (String.mk name))
      | some c => Except.ok c.2.data

/-- Scans a placeholder body up to the closing double brace: the name and
the remainder after the closing braces, or `none` when the placeholder is
never closed. -/
def scanName : List Char → Option (List Char × List Char)
  | c1 :: c2 :: rest =>
    if c1 = rbr ∧ c2 = rbr then some ([], rest)
    else
      match scanName (c2 :: rest) with
      | some (nm, r) => some (c1 :: nm, r)
      | none => none
  | _ => none

/-- Modelled from the spec: template resolution over the raw template text
(spec section 4.4): every placeholder written as a name between double
braces is substituted by textual interpolation; an opening double brace
that is never closed is kept literally.  The fuel argument is the template
length, which bounds the number of scanning steps. -/
def resolveFuel (mapping : List (String × String)) (database : String)
    (selectedRow : List (String × String)) :
    Nat → List Char → Except DrillDownError (List Char)
  | 0, s => Except.ok s
  | _ + 1, [] => Except.ok []
  | fuel + 1, c1 :: rest =>
    if c1 = lbr then
      match rest with
      | c2 :: rest2 =>
        if c2 = lbr then
          match scanName rest2 with
          | some (nm, after) =>
            match resolveName mapping database selectedRow nm with
            | Except.error e => Except.error e
            | Except.ok v =>
              match resolveFuel mapping database selectedRow fuel after with
              | Except.error e => Except.error e
              | Except.ok t => Except.ok (v ++ t)
          | none =>
            match resolveFuel mapping database selectedRow fuel rest with
            | Except.error e => Except.error e
            | Except.ok t => Except.ok (c1 :: t)
        else
          match resolveFuel mapping database selectedRow fuel rest with
          | Except.error e => Except.error e
          | Except.ok t => Except.ok (c1 :: t)
      | [] => Except.ok [c1]
    else
      match resolveFuel mapping database selectedRow fuel rest with
      | Except.error e => Except.error e
      | Except.ok t => Except.ok (c1 :: t)

/-- Template resolution at the string level. -/
def resolveTemplate (template : String) (mapping : List (String × String))
    (database : String) (selectedRow : List (String × String)) :
    Except DrillDownError String :=
  match resolveFuel mapping database selectedRow template.length
      template.data with
  | Except.error e => Except.error e
  | Except.ok t => Except.ok (String.mk t)

/-- An opening double brace. -/
def dbl : List Char := [lbr, lbr]

/-- A closing double brace. -/
def dbr : List Char := [rbr, rbr]

/-- The spec's drill-down example template, with the database placeholder
and a quoted x placeholder. -/
def tplC5 : String :=
  String.mk ("SELECT * FROM ".data ++ dbl ++ "database".data ++ dbr
    ++ ".orders WHERE month=".data ++ [sqc] ++ dbl ++ "x".data ++ dbr
    ++ [sqc])

/-- The resolved query the spec's example expects. -/
def expectedC5 : String :=
  String.mk ("SELECT * FROM sales_db.orders WHERE month=".data ++ [sqc]
    ++ "2025-01".data ++ [sqc])

/-- JavaScript `isNaN(s)` for a string argument. -/
def jsIsNaN (s : String) : Bool :=
  jsToNumber s = JsNum.nan

/-- JavaScript `row[i]`: the element, or `undefined` past the end. -/
def jsIndex (row : List JVal) (i : Nat) : JVal :=
  (row.get? i).getD JVal.undef

/-- The cell coercion inlined in `columnarToObjects`
(`explain-chart-mcp.js`): a string that is not NaN under `Number` coercion
and whose trim is nonempty becomes `parseFloat` of itself; every other
value passes through unchanged. -/
def coerceCell (v : JVal) : JVal :=
  match v with
  | JVal.str s =>
    if !jsIsNaN s && !(jsTrim s).isEmpty then JVal.num (jsParseFloat s)
    else JVal.str s
  | v => v

/-- `columnarToObjects` from `explain-chart-mcp.js` (embedded in SKILL.md):
each row becomes an object keyed by the column names in positional order,
with the numeric-string coercion applied to each cell. -/
def columnarToObjects (columns : List String) (rows : List (List JVal)) :
    List JVal :=
  rows.map (fun row =>
    JVal.obj (columns.enum.map (fun p => (p.2, coerceCell (jsIndex row p.1)))))

/-- Columns for the C8 witness. -/
def colsC8 : List String := ["month", "value"]

/-- A row mixing a non-numeric string and a numeric string. -/
def rowC8 : List JVal := [JVal.str "2025-01", JVal.str "42.5"]

/-- The backquote character. -/
def bqc : Char := Char.ofNat 96

/-- GetSubstitution for a replacement with no capture groups (JavaScript
`String.replace`): dollar-dollar yields a literal dollar, dollar-ampersand
the matched text, dollar-backquote the portion of the original string
before the match, dollar-quote the portion after; any other dollar is
literal. -/
def dollarExpand : List Char → List Char → List Char → List Char → List Char
  | [], _, _, _ => []
  | [c], _, _, _ => [c]
  | c :: d :: rest2, matched, before, after =>
    if c = '$' then
      if d = '$' then '$' :: dollarExpand rest2 matched before after
      else if d = '&' then matched ++ dollarExpand rest2 matched before after
      else if d = bqc then before ++ dollarExpand rest2 matched before after
      else if d = sqc then after ++ dollarExpand rest2 matched before after
      else c :: dollarExpand (d :: rest2) matched before after
    else c :: dollarExpand (d :: rest2) matched before after

/-- True when the replacement text contains a dollar character. -/
def hasDollar (cs : List Char) : Bool :=
  cs.any (fun c => c = '$')

/-- The first occurrence of the pattern in a text, scanning left to right:
the text before the occurrence and the text after it. -/
def splitFirst (pat : List Char) : List Char → Option (List Char × List Char)
  | [] => if startsWithChars pat [] then some ([], []) else none
  | c :: rest =>
    if startsWithChars pat (c :: rest) then
      some ([], (c :: rest).drop pat.length)
    else
      match splitFirst pat rest with
      | some (a, b) => some (c :: a, b)
      | none => none

/-- JavaScript `s.replace(pat, rep)` with a string pattern: replace the
first occurrence only, applying the dollar substitutions. -/
def jsReplaceFirst (s pat rep : List Char) : List Char :=
  match splitFirst pat s with
  | none => s
  | some (a, b) => a ++ dollarExpand rep pat a b ++ b

/-- One global-replace pass, recursing on the number of matches (the fuel,
bounded by the text length); `pre` accumulates the original text already
scanned so the dollar substitutions see original positions. -/
def replaceAllFuel (pat rep : List Char) :
    Nat → List Char → List Char → List Char
  | 0, _pre, s => s
  | fuel + 1, pre, s =>
    match splitFirst pat s with
    | none => s
    | some (a, b) =>
      a ++ dollarExpand rep pat (pre ++ a) b
        ++ replaceAllFuel pat rep fuel (pre ++ a ++ pat) b

/-- JavaScript `s.replace(regex-g, rep)` for a global regex matching the
literal pattern text: replace every non-overlapping occurrence left to
right (the replacement text is not rescanned). -/
def jsReplaceAllG (s pat rep : List Char) : List Char :=
  replaceAllFuel pat rep (s.length + 1) [] s

/-- The TITLE placeholder text matched by the generator's global regex. -/
def titlePat : List Char := dbl ++ "TITLE".data ++ dbr

/-- The DATA placeholder text. -/
def dataPat : List Char := dbl ++ "DATA".data ++ dbr

/-- The QUERY placeholder text. -/
def queryPat : List Char := dbl ++ "QUERY".data ++ dbr

/-- The X_FIELD placeholder text. -/
def xPat : List Char := dbl ++ "X_FIELD".data ++ dbr

/-- The Y_FIELD placeholder text. -/
def yPat : List Char := dbl ++ "Y_FIELD".data ++ dbr

/-- The template instantiation chain shared by `explain-chart-mcp.js`
(lines 443-448) and `generate.js` (lines 614-619): replace every TITLE
placeholder through a global regex, then the first occurrence of each of
DATA, QUERY, X_FIELD and Y_FIELD through string-pattern `replace`.  The
last four arguments stand for the JSON-stringified values the scripts
pass. -/
def instantiateTemplate (tpl title data query xf yf : List Char) :
    List Char :=
  jsReplaceFirst
    (jsReplaceFirst
      (jsReplaceFirst
        (jsReplaceFirst (jsReplaceAllG tpl titlePat title) dataPat data)
        queryPat query)
      xPat xf)
    yPat yf

/-- No left brace occurs in the text, so no placeholder can start inside
it. -/
def noLbr (cs : List Char) : Bool :=
  cs.all (fun c => !(c = lbr))

/-- No occurrence of the pattern starts at a position inside `a` of the
text `a ++ rest`. -/
def noMatchUpto (pat : List Char) : List Char → List Char → Bool
  | [], _rest => true
  | c :: a, rest =>
    !startsWithChars pat ((c :: a) ++ rest) && noMatchUpto pat a rest

/-- The pattern mismatches the text already within the listed characters
(so no continuation can make it match there). -/
def clashWithin (pat b : List Char) : Bool :=
  match pat, b with
  | _, [] => false
  | [], _ => false
  | p :: ps, c :: cs => !(p = c) || clashWithin ps cs

/-- At every suffix of the text, the pattern mismatches already within the
text. -/
def allSuffixClash (pat : List Char) : List Char → Bool
  | [] => true
  | c :: bs => clashWithin pat (c :: bs) && allSuffixClash pat bs

/-- The pattern cannot match starting inside this text, whatever follows
it. -/
def SkipsOver (pat A : List Char) : Prop :=
  ∀ rest, noMatchUpto pat A rest = true

-- THEOREMS

/-- Claim C8: `columnarToObjects` maps each input row to an object keyed by
the column names in positional alignment, coercing every cell that is a
string passing the `isNaN` check with a nonempty trim to a float via
`parseFloat`, and passing every other cell through unchanged. -/
theorem c8_columnar_coercion (cols : List String) (rows : List (List JVal))
    (i : Nat) (row : List JVal) (h : rows.get? i = some row)
    (s : String) (v : JVal) :
    (columnarToObjects cols rows).get? i =
      some (JVal.obj (cols.enum.map (fun p => (p.2, coerceCell (jsIndex row p.1)))))
    ∧ (jsIsNaN s = false → (jsTrim s).isEmpty = false →
        coerceCell (JVal.str s) = JVal.num (jsParseFloat s))
    ∧ (jsIsNaN s = true ∨ (jsTrim s).isEmpty = true →
        coerceCell (JVal.str s) = JVal.str s)
    ∧ ((∀ t, v ≠ JVal.str t) → coerceCell v = v) := by
  refine ⟨?_, fun h1 h2 => ?_, fun h12 => ?_, fun hns => ?_⟩
  · show (rows.map _).get? i = _
    rw [List.get?_map, h]
    rfl
  · simp [coerceCell, h1, h2]
  · rcases h12 with h1 | h1 <;> simp [coerceCell, h1]
  · cases v with
    | str t => exact absurd rfl (hns t)
    | undef => rfl
    | null => rfl
    | bool b => rfl
    | num n => rfl
    | arr xs => rfl
    | obj fs => rfl

/-- Witness for claim C8: on a concrete row, the date-like string passes
through unchanged while the numeric string is coerced to a number. -/
theorem c8_columnar_coercion_witness :
    (columnarToObjects colsC8 [rowC8]).get? 0 =
      some (JVal.obj [("month", JVal.str "2025-01"),
        ("value", JVal.num (jsParseFloat "42.5"))])
    ∧ coerceCell (JVal.str "42.5") = JVal.num (jsParseFloat "42.5")
    ∧ coerceCell (JVal.str "abc") = JVal.str "abc"
    ∧ coerceCell (JVal.num (JsNum.fin 7)) = JVal.num (JsNum.fin 7) := by
  have h := c8_columnar_coercion colsC8 [rowC8] 0 rowC8 rfl "42.5"
    (JVal.num (JsNum.fin 7))
  have h2 := c8_columnar_coercion colsC8 [rowC8] 0 rowC8 rfl "abc" JVal.null
  exact ⟨h.1, h.2.1 (by decide) (by decide), h2.2.2.1 (Or.inl (by decide)),
    h.2.2.2 (fun t ht => JVal.noConfusion ht)⟩

/-- Claim C5: drill-down resolution substitutes the literal database value
for the database placeholder and the selected row's cell for a mapped
placeholder — the spec's example template with mapping x to month, database
sales_db and selected row month 2025-01 resolves to the expected query —
and it fails with `UnresolvedPlaceholder` when the mapping lacks the name
or when the mapped column is absent from the selected row. -/
theorem c5_drilldown_resolution :
    resolveTemplate tplC5 [("x", "month")] "sales_db" [("month", "2025-01")]
      = Except.ok expectedC5
    ∧ resolveTemplate tplC5 [] "sales_db" [("month", "2025-01")]
      = Except.error (DrillDownError.unresolvedPlaceholder "x")
    ∧ resolveTemplate tplC5 [("x", "month")] "sales_db" [("year", "2025")]
      = Except.error (DrillDownError.unresolvedPlaceholder "x")
    ∧ resolveTemplate (String.mk (dbl ++ "database".data ++ dbr)) []
        "sales_db" [] = Except.ok "sales_db" := by
  refine ⟨?_, ?_, ?_, ?_⟩ <;> rfl

/-- Claim C2: on an input whose required fields are present and well-shaped,
ingestion fails with `ColumnMismatch` — no snapshot is produced — exactly
when some row's cell count differs from the column count. -/
theorem c2_column_mismatch (fields : JObj) (t x y q : String)
    (cols : List String) (rws : List (List JVal))
    (he : extractRequired fields = some (t, x, y, q, cols, rws)) :
    parseAndClassify (JVal.obj fields) =
        Except.error ValidationError.columnMismatch
      ↔ rws.any (fun r => r.length != cols.length) = true := by
  by_cases h : rws.any (fun r => r.length != cols.length) = true
  · simp [parseAndClassify, he, h]
  · simp [parseAndClassify, he, h]

/-- Witness for claim C2: a two-column input with a one-cell row is
rejected with `ColumnMismatch`. -/
theorem c2_column_mismatch_witness :
    extractRequired fieldsC2 =
      some ("T", "month", "revenue", "SELECT 1",
        ["month", "revenue"], [[JVal.str "2025-01"]])
    ∧ parseAndClassify (JVal.obj fieldsC2) =
        Except.error ValidationError.columnMismatch :=
  ⟨rfl,
    (c2_column_mismatch fieldsC2 "T" "month" "revenue" "SELECT 1"
      ["month", "revenue"] [[JVal.str "2025-01"]] rfl).mpr (by decide)⟩

/-- Counterexample to claim C3: a config supplying all six required fields
where `columns` has the wrong shape (a number instead of an array) is not
rejected — the run completes with exit code 0 — so rejection is not
"exactly" absence-or-wrong-shape. -/
theorem c3_shape_counterexample :
    validateRequired cfgC3 = none
    ∧ configWellShaped cfgC3 = false
    ∧ exitCode (ducktraceRun (some (some cfgC3)) 0 false) = 0 :=
  ⟨rfl, rfl, rfl⟩

/-- Claim C3 as amended: the entry point error-exits exactly when the
config is missing from argv, unparseable, some required field is absent or
JavaScript-falsy (`!config[r]`), or — after validation — the `rows` value
answers a length above `MAX_ROWS` while being neither an array nor a
string, so `rows.slice` throws an uncaught TypeError; the shapes of the
supplied values are never validated as such. -/
theorem c3_truthiness_validation (config : JObj) (now : Nat) (wf : Bool) :
    (exitCode (ducktraceRun (some (some config)) now wf) ≠ 0 ↔
      (requiredFields.any (fun r => !jsTruthy (jlookup config r)) = true
        ∨ applyRowLimits (jlookup config "rows") = none))
    ∧ exitCode (ducktraceRun (some none) now wf) ≠ 0
    ∧ exitCode (ducktraceRun none now wf) ≠ 0 := by
  refine ⟨?_, by simp [ducktraceRun, exitCode], by simp [ducktraceRun, exitCode]⟩
  constructor
  · intro h
    cases hv : validateRequired config with
    | none =>
      cases ha : applyRowLimits (jlookup config "rows") with
      | none => exact Or.inr rfl
      | some rl => simp [ducktraceRun, hv, ha, exitCode] at h
    | some r =>
      refine Or.inl ?_
      have hmem : r ∈ requiredFields := List.mem_of_find?_eq_some hv
      have hp := List.find?_some hv
      exact List.any_eq_true.mpr ⟨r, hmem, hp⟩
  · intro h
    cases hv : validateRequired config with
    | some r => simp [ducktraceRun, hv, exitCode]
    | none =>
      rcases h with h | h
      · exfalso
        obtain ⟨r, hmem, hp⟩ := List.any_eq_true.mp h
        exact absurd hp (by simpa using List.find?_eq_none.mp hv r hmem)
      · simp [ducktraceRun, hv, h, exitCode]

/-- Witness for claim C3 as amended: a config missing the `y` field is
rejected with a nonzero exit code, and so is a validated config whose
`rows` is an object with a `length` of 75 (the `rows.slice` crash). -/
theorem c3_truthiness_validation_witness :
    exitCode (ducktraceRun (some (some cfgC3w)) 0 false) ≠ 0
    ∧ exitCode (ducktraceRun (some (some cfgC3crash)) 0 false) ≠ 0 :=
  ⟨((c3_truthiness_validation cfgC3w 0 false).1).mpr (Or.inl (by decide)),
   ((c3_truthiness_validation cfgC3crash 0 false).1).mpr (Or.inr rfl)⟩

/-- Evaluation of the row-limit block on an array `rows` value: an array
answers its element count as length and owns `slice`, so the block never
crashes on it and truncates exactly when the count exceeds `MAX_ROWS`. -/
theorem applyRowLimits_arr (rs : List JVal) :
    applyRowLimits (JVal.arr rs) =
      (if MAX_ROWS < rs.length
        then some (JVal.arr (rs.take MAX_ROWS), "truncated", some rs.length)
        else some (JVal.arr rs, "success", none)) := by
  have hc : jsGtNum (jsGetLength (JVal.arr rs)) (MAX_ROWS : ℚ)
      = decide (MAX_ROWS < rs.length) := by
    simp only [jsGetLength, jsGtNum, jsToNumValue]
    rw [decide_eq_decide]
    exact Nat.cast_lt
  by_cases h : MAX_ROWS < rs.length
  · simp [applyRowLimits, hc, h]
  · simp [applyRowLimits, hc, h]

/-- Evaluation of the minimum-row warning condition on an array value. -/
theorem minRowsWarned_arr (rs : List JVal) :
    minRowsWarned (JVal.arr rs) = decide (rs.length < MIN_ROWS) := by
  simp only [minRowsWarned, jsGetLength, jsLtNum, jsToNumValue]
  rw [decide_eq_decide]
  exact Nat.cast_lt

/-- Claim C1: for a config passing required-field validation whose `rows`
is an array, the written snapshot keeps the first `MAX_ROWS` rows in input
order with status `truncated` and the original count recorded whenever the
array is longer than `MAX_ROWS`, and keeps the rows unchanged with status
`success` and a null `truncatedFrom` otherwise. -/
theorem c1_row_truncation (config : JObj) (rs : List JVal) (now : Nat)
    (hv : validateRequired config = none)
    (hr : jlookup config "rows" = JVal.arr rs) :
    ducktraceRun (some (some config)) now false =
      RunOutcome.completed (tuiDataOf config now)
        (minRowsWarned (rowLimitResult config).1) true
    ∧ (MAX_ROWS < rs.length →
        (tuiDataOf config now).rows = JVal.arr (rs.take MAX_ROWS)
        ∧ (tuiDataOf config now).status = "truncated"
        ∧ (tuiDataOf config now).truncatedFrom = some rs.length)
    ∧ (rs.length ≤ MAX_ROWS →
        (tuiDataOf config now).rows = JVal.arr rs
        ∧ (tuiDataOf config now).status = "success"
        ∧ (tuiDataOf config now).truncatedFrom = none) := by
  refine ⟨?_, fun h => ?_, fun h => ?_⟩
  · by_cases h : MAX_ROWS < rs.length <;>
      simp [ducktraceRun, hv, hr, applyRowLimits_arr, h]
  · simp [tuiDataOf, rowLimitResult, hr, applyRowLimits_arr, h]
  · have h' : ¬ MAX_ROWS < rs.length := by omega
    simp [tuiDataOf, rowLimitResult, hr, applyRowLimits_arr, h']

/-- Witness for claim C1: the 75-row config yields exactly the first 50
rows, status `truncated`, and recorded original count 75. -/
theorem c1_row_truncation_witness :
    (tuiDataOf cfgC1 0).rows = JVal.arr (rowsC1.take MAX_ROWS)
    ∧ (tuiDataOf cfgC1 0).status = "truncated"
    ∧ (tuiDataOf cfgC1 0).truncatedFrom = some 75
    ∧ rowsC1.length = 75
    ∧ (rowsC1.take MAX_ROWS).length = 50 := by
  have h := (c1_row_truncation cfgC1 rowsC1 0 rfl rfl).2.1 (by decide)
  exact ⟨h.1, h.2.1, h.2.2, by decide, by decide⟩

/-- Claim C4: a config that passes required-field validation and whose rows
array has fewer than `MIN_ROWS` entries (including the empty array) is never
rejected: the run completes with the snapshot written, the minimum-row
warning raised, and exit code 0. -/
theorem c4_min_rows_warning (config : JObj) (rs : List JVal) (now : Nat)
    (hv : validateRequired config = none)
    (hr : jlookup config "rows" = JVal.arr rs)
    (hlen : rs.length < MIN_ROWS) :
    ducktraceRun (some (some config)) now false =
      RunOutcome.completed (tuiDataOf config now) true true
    ∧ exitCode (ducktraceRun (some (some config)) now false) = 0 := by
  have hlen2 : rs.length < 2 := hlen
  have hlt : ¬ MAX_ROWS < rs.length := by
    simp only [MAX_ROWS]; omega
  have hw : minRowsWarned (rowLimitResult config).1 = true := by
    simp [rowLimitResult, hr, applyRowLimits_arr, hlt, minRowsWarned_arr,
      MIN_ROWS, hlen2]
  constructor
  · simp [ducktraceRun, hv, hr, applyRowLimits_arr, hlt, hw]
  · simp [ducktraceRun, hv, hr, applyRowLimits_arr, hlt, exitCode]

/-- Witness for claim C4: the empty-rows config completes with the warning
raised and exit code 0. -/
theorem c4_min_rows_warning_witness :
    ducktraceRun (some (some cfgC4)) 0 false =
      RunOutcome.completed (tuiDataOf cfgC4 0) true true
    ∧ exitCode (ducktraceRun (some (some cfgC4)) 0 false) = 0 :=
  c4_min_rows_warning cfgC4 [] 0 rfl rfl (by decide)

/-- Claim C6: on a config that passes validation and whose row-limit block
does not crash (so the run reaches the write), a throwing data-file write
still lets the run complete with exit code 0; the failure is recorded only
as a logged note (`wrote = false`), never as an ingestion error outcome. -/
theorem c6_write_failure_nonfatal (config : JObj) (now : Nat)
    (rl : JVal × String × Option Nat)
    (hv : validateRequired config = none)
    (hr : applyRowLimits (jlookup config "rows") = some rl) :
    ducktraceRun (some (some config)) now true =
      RunOutcome.completed (tuiDataOf config now)
        (minRowsWarned (rowLimitResult config).1) false
    ∧ exitCode (ducktraceRun (some (some config)) now true) = 0 := by
  constructor
  · simp [ducktraceRun, hv, hr]
  · simp [ducktraceRun, hv, hr, exitCode]

/-- Witness for claim C6: a concrete valid config whose write fails still
completes with exit code 0. -/
theorem c6_write_failure_nonfatal_witness :
    ducktraceRun (some (some cfgC6)) 0 true =
      RunOutcome.completed (tuiDataOf cfgC6 0)
        (minRowsWarned (rowLimitResult cfgC6).1) false
    ∧ exitCode (ducktraceRun (some (some cfgC6)) 0 true) = 0 :=
  c6_write_failure_nonfatal cfgC6 0
    (JVal.arr [JVal.arr [JVal.str "2025-01", JVal.str "100"],
               JVal.arr [JVal.str "2025-02", JVal.str "200"]], "success",
     none) rfl rfl

/-- Counterexample to claim C7: two runs of `ducktrace-mcp.js` on the same
config at different `Date.now()` values write different snapshot content,
because the script itself stamps `timestamp: Date.now()` into the data. -/
theorem c7_timestamp_counterexample :
    tuiDataOf cfgC7 1 ≠ tuiDataOf cfgC7 2 := by
  intro h
  have h2 := congrArg TuiData.timestamp h
  simp [tuiDataOf] at h2

/-- Claim C7 as amended: every snapshot field other than the timestamp is a
pure function of the config (two runs on the same config agree after the
timestamp is normalised), and the timestamp field equals the clock value
`Date.now()` sampled by the script at the write. -/
theorem c7_pure_modulo_timestamp (config : JObj) (t1 t2 : Nat) :
    stripTimestamp (tuiDataOf config t1) = stripTimestamp (tuiDataOf config t2)
    ∧ (tuiDataOf config t1).timestamp = t1 :=
  ⟨rfl, rfl⟩

/-- Claim C10: the written snapshot's `drillDown` field equals
`config.drillDown` when that is truthy, otherwise `config.drill_down` when
that is truthy, otherwise JSON null; and likewise for `explainData` with
`config.explainData` and `config.explain_data`. -/
theorem c10_key_fallbacks (config : JObj) (now : Nat) :
    ((jsTruthy (jlookup config "drillDown") = true →
        (tuiDataOf config now).drillDown = jlookup config "drillDown")
     ∧ (jsTruthy (jlookup config "drillDown") = false →
        jsTruthy (jlookup config "drill_down") = true →
        (tuiDataOf config now).drillDown = jlookup config "drill_down")
     ∧ (jsTruthy (jlookup config "drillDown") = false →
        jsTruthy (jlookup config "drill_down") = false →
        (tuiDataOf config now).drillDown = JVal.null))
    ∧ ((jsTruthy (jlookup config "explainData") = true →
        (tuiDataOf config now).explainData = jlookup config "explainData")
     ∧ (jsTruthy (jlookup config "explainData") = false →
        jsTruthy (jlookup config "explain_data") = true →
        (tuiDataOf config now).explainData = jlookup config "explain_data")
     ∧ (jsTruthy (jlookup config "explainData") = false →
        jsTruthy (jlookup config "explain_data") = false →
        (tuiDataOf config now).explainData = JVal.null)) := by
  constructor
  · refine ⟨fun h1 => ?_, fun h1 h2 => ?_, fun h1 h2 => ?_⟩
    · simp [tuiDataOf, jsOr, h1]
    · simp [tuiDataOf, jsOr, h1, h2]
    · simp [tuiDataOf, jsOr, h1, h2]
  · refine ⟨fun h1 => ?_, fun h1 h2 => ?_, fun h1 h2 => ?_⟩
    · simp [tuiDataOf, jsOr, h1]
    · simp [tuiDataOf, jsOr, h1, h2]
    · simp [tuiDataOf, jsOr, h1, h2]

/-- Witness for claim C10: with only the snake_case `drill_down` key
supplied, the written field equals that value, and `explainData` falls all
the way back to null. -/
theorem c10_key_fallbacks_witness :
    (tuiDataOf cfgC10 0).drillDown = jlookup cfgC10 "drill_down"
    ∧ (tuiDataOf cfgC10 0).explainData = JVal.null := by
  have h := c10_key_fallbacks cfgC10 0
  exact ⟨h.1.2.1 rfl rfl, h.2.2.2 rfl rfl⟩

theorem startsWithChars_self_append (p rest : List Char) :
    startsWithChars p (p ++ rest) = true := by
  induction p with
  | nil => rfl
  | cons c cs ih => simp [startsWithChars, List.cons_append, ih]

theorem startsWithChars_clash (pat b rest : List Char)
    (h : clashWithin pat b = true) :
    startsWithChars pat (b ++ rest) = false := by
  induction pat generalizing b with
  | nil => cases b <;> simp [clashWithin] at h
  | cons p ps ih =>
    cases b with
    | nil => simp [clashWithin] at h
    | cons c cs =>
      simp only [clashWithin, Bool.or_eq_true, Bool.not_eq_true',
        decide_eq_false_iff_not] at h
      rcases h with h | h
      · simp [startsWithChars, List.cons_append, h]
      · simp [startsWithChars, List.cons_append, ih cs h]

theorem allSuffixClash_skips (pat B : List Char) :
    allSuffixClash pat B = true → SkipsOver pat B := by
  induction B with
  | nil => intro _ rest; rfl
  | cons c bs ih =>
    intro h rest
    simp only [allSuffixClash, Bool.and_eq_true] at h
    simp only [noMatchUpto, Bool.and_eq_true]
    refine ⟨?_, ih h.2 rest⟩
    have := startsWithChars_clash pat (c :: bs) rest h.1
    simp only [List.cons_append] at this
    simp [this]

theorem noLbr_skips (pat p' A : List Char) (hp : pat = lbr :: p') :
    noLbr A = true → SkipsOver pat A := by
  induction A with
  | nil => intro _ rest; rfl
  | cons c as ih =>
    intro h rest
    simp only [noLbr, List.all_cons, Bool.and_eq_true, Bool.not_eq_true',
      decide_eq_false_iff_not] at h
    obtain ⟨h1, h2⟩ := h
    simp only [noMatchUpto, Bool.and_eq_true]
    constructor
    · subst hp
      have : ¬(lbr = c) := fun hh => h1 hh.symm
      simp [startsWithChars, List.cons_append, this]
    · exact ih (by simpa [noLbr] using h2) rest

theorem skipsOver_nil (pat : List Char) : SkipsOver pat [] := fun _ => rfl

theorem skipsOver_append (pat A B : List Char) :
    SkipsOver pat A → SkipsOver pat B → SkipsOver pat (A ++ B) := by
  induction A with
  | nil => intro _ hB rest; exact hB rest
  | cons c as ih =>
    intro hA hB rest
    have hs : SkipsOver pat as := fun r => by
      have h' := hA r
      simp only [noMatchUpto, Bool.and_eq_true] at h'
      exact h'.2
    have hhead := hA (B ++ rest)
    simp only [noMatchUpto, Bool.and_eq_true] at hhead
    simp only [List.cons_append, noMatchUpto, Bool.and_eq_true]
    exact ⟨by simpa [List.append_assoc] using hhead.1, ih hs hB rest⟩

theorem splitFirst_nil (pat : List Char) (hp : pat ≠ []) :
    splitFirst pat [] = none := by
  cases pat with
  | nil => exact absurd rfl hp
  | cons p ps => rfl

theorem splitFirst_self (pat : List Char) (hp : pat ≠ []) (rest : List Char) :
    splitFirst pat (pat ++ rest) = some ([], rest) := by
  cases pat with
  | nil => exact absurd rfl hp
  | cons p ps =>
    have hs : startsWithChars (p :: ps) (p :: (ps ++ rest)) = true := by
      simpa [List.cons_append] using startsWithChars_self_append (p :: ps) rest
    show splitFirst (p :: ps) (p :: (ps ++ rest)) = _
    simp [splitFirst, hs, List.length_cons, List.drop_succ_cons,
      List.drop_left]

theorem splitFirst_skip (pat A : List Char) (hA : SkipsOver pat A)
    (rest : List Char) :
    splitFirst pat (A ++ rest) =
      Option.map (fun x => (A ++ x.1, x.2)) (splitFirst pat rest) := by
  induction A with
  | nil => cases h : splitFirst pat rest <;> simp [h]
  | cons c as ih =>
    have h := hA rest
    simp only [noMatchUpto, Bool.and_eq_true] at h
    obtain ⟨h1, h2⟩ := h
    have has : SkipsOver pat as := fun r => by
      have h' := hA r
      simp only [noMatchUpto, Bool.and_eq_true] at h'
      exact h'.2
    have h1' : startsWithChars pat (c :: (as ++ rest)) = false := by
      simpa [List.cons_append] using h1
    show splitFirst pat (c :: (as ++ rest)) = _
    rw [splitFirst, h1']
    simp only [Bool.false_eq_true, if_false]
    rw [ih has]
    cases h : splitFirst pat rest with
    | none => simp
    | some x => simp [List.cons_append]

theorem splitFirst_none_of (pat : List Char) (hp : pat ≠ []) (A : List Char)
    (hA : SkipsOver pat A) : splitFirst pat A = none := by
  have h := splitFirst_skip pat A hA []
  rw [List.append_nil, splitFirst_nil pat hp] at h
  simpa using h

theorem dollarExpand_no_dollar (rep matched before after : List Char)
    (h : hasDollar rep = false) :
    dollarExpand rep matched before after = rep := by
  induction rep with
  | nil => rfl
  | cons c rest ih =>
    cases rest with
    | nil => rfl
    | cons d rest2 =>
      simp only [hasDollar, List.any_cons, Bool.or_eq_false_iff,
        decide_eq_false_iff_not] at h
      obtain ⟨hc, h'⟩ := h
      rw [dollarExpand, if_neg hc]
      congr 1
      exact ih (by simpa [hasDollar, List.any_cons] using h')

theorem raf_none (pat rep : List Char) (f : Nat) (pre s : List Char)
    (h : splitFirst pat s = none) :
    replaceAllFuel pat rep f pre s = s := by
  cases f with
  | zero => rfl
  | succ f => simp [replaceAllFuel, h]

theorem raf_some (pat rep : List Char) (f : Nat) (pre s a b : List Char)
    (h : splitFirst pat s = some (a, b)) :
    replaceAllFuel pat rep (f + 1) pre s =
      a ++ dollarExpand rep pat (pre ++ a) b
        ++ replaceAllFuel pat rep f (pre ++ a ++ pat) b := by
  simp [replaceAllFuel, h]

theorem jsReplaceFirst_eval (pat rep s a b : List Char)
    (h : splitFirst pat s = some (a, b)) (hd : hasDollar rep = false) :
    jsReplaceFirst s pat rep = a ++ (rep ++ b) := by
  simp [jsReplaceFirst, h, dollarExpand_no_dollar _ _ _ _ hd,
    List.append_assoc]

theorem replaceAll_two (pat : List Char) (hp : pat ≠ []) (rep : List Char)
    (hd : hasDollar rep = false) (A B C : List Char)
    (hA : SkipsOver pat A) (hB : SkipsOver pat B) (hC : SkipsOver pat C) :
    jsReplaceAllG (A ++ (pat ++ (B ++ (pat ++ C)))) pat rep
      = A ++ (rep ++ (B ++ (rep ++ C))) := by
  have hs1 : splitFirst pat (A ++ (pat ++ (B ++ (pat ++ C))))
      = some (A ++ [], B ++ (pat ++ C)) := by
    rw [splitFirst_skip pat A hA, splitFirst_self pat hp]
    rfl
  have hs2 : splitFirst pat (B ++ (pat ++ C)) = some (B ++ [], C) := by
    rw [splitFirst_skip pat B hB, splitFirst_self pat hp]
    rfl
  have hs3 : splitFirst pat C = none := splitFirst_none_of pat hp C hC
  obtain ⟨m, hm⟩ : ∃ m, (A ++ (pat ++ (B ++ (pat ++ C)))).length = m + 1 := by
    cases pat with
    | nil => exact absurd rfl hp
    | cons p ps =>
      refine ⟨(A ++ ((p :: ps) ++ (B ++ ((p :: ps) ++ C)))).length - 1, ?_⟩
      simp [List.length_append, List.length_cons]
      omega
  unfold jsReplaceAllG
  rw [raf_some pat rep _ _ _ _ _ hs1]
  rw [dollarExpand_no_dollar _ _ _ _ hd]
  rw [hm]
  rw [raf_some pat rep _ _ _ _ _ hs2]
  rw [dollarExpand_no_dollar _ _ _ _ hd]
  rw [raf_none pat rep _ _ _ hs3]
  simp [List.append_assoc]

/-- Claim C9: in the HTML template instantiation, every occurrence of the
TITLE placeholder is replaced (global regex), while for each of the DATA,
QUERY, X_FIELD and Y_FIELD placeholders only the first occurrence is
replaced and any later occurrence remains literally in the output.  The
literal segments and replacement values are assumed free of braces and
dollar signs, so no placeholder or dollar escape arises from them. -/
theorem c9_template_substitution
    (t0 t1 t2 t3 t4 t5 t6 t7 t8 t9 t10 vT vD vQ vX vY : List Char)
    (h0 : noLbr t0 = true) (h1 : noLbr t1 = true) (h2 : noLbr t2 = true)
    (h3 : noLbr t3 = true) (h4 : noLbr t4 = true) (h5 : noLbr t5 = true)
    (h6 : noLbr t6 = true) (h7 : noLbr t7 = true) (h8 : noLbr t8 = true)
    (h9 : noLbr t9 = true) (h10 : noLbr t10 = true)
    (hvT : noLbr vT = true) (hvD : noLbr vD = true) (hvQ : noLbr vQ = true)
    (hvX : noLbr vX = true) (hvY : noLbr vY = true)
    (hdT : hasDollar vT = false) (hdD : hasDollar vD = false)
    (hdQ : hasDollar vQ = false) (hdX : hasDollar vX = false)
    (hdY : hasDollar vY = false) :
    instantiateTemplate
        (t0 ++ titlePat ++ t1 ++ titlePat ++ t2 ++ dataPat ++ t3 ++ dataPat
          ++ t4 ++ queryPat ++ t5 ++ queryPat ++ t6 ++ xPat ++ t7 ++ xPat
          ++ t8 ++ yPat ++ t9 ++ yPat ++ t10)
        vT vD vQ vX vY
      = t0 ++ vT ++ t1 ++ vT ++ t2 ++ vD ++ t3 ++ dataPat ++ t4 ++ vQ ++ t5
          ++ queryPat ++ t6 ++ vX ++ t7 ++ xPat ++ t8 ++ vY ++ t9 ++ yPat
          ++ t10 := by
  have eT : titlePat = lbr :: (lbr :: ("TITLE".data ++ dbr)) := rfl
  have eD : dataPat = lbr :: (lbr :: ("DATA".data ++ dbr)) := rfl
  have eQ : queryPat = lbr :: (lbr :: ("QUERY".data ++ dbr)) := rfl
  have eX : xPat = lbr :: (lbr :: ("X_FIELD".data ++ dbr)) := rfl
  have eY : yPat = lbr :: (lbr :: ("Y_FIELD".data ++ dbr)) := rfl
  have neT : titlePat ≠ [] := by simp [eT]
  have neD : dataPat ≠ [] := by simp [eD]
  have neQ : queryPat ≠ [] := by simp [eQ]
  have neX : xPat ≠ [] := by simp [eX]
  have neY : yPat ≠ [] := by simp [eY]
  have cTD : allSuffixClash titlePat dataPat = true := by decide
  have cTQ : allSuffixClash titlePat queryPat = true := by decide
  have cTX : allSuffixClash titlePat xPat = true := by decide
  have cTY : allSuffixClash titlePat yPat = true := by decide
  have cQD : allSuffixClash queryPat dataPat = true := by decide
  have cXD : allSuffixClash xPat dataPat = true := by decide
  have cXQ : allSuffixClash xPat queryPat = true := by decide
  have cYD : allSuffixClash yPat dataPat = true := by decide
  have cYQ : allSuffixClash yPat queryPat = true := by decide
  have cYX : allSuffixClash yPat xPat = true := by decide
  have skC : SkipsOver titlePat
      (t2 ++ (dataPat ++ (t3 ++ (dataPat ++ (t4 ++ (queryPat ++ (t5
        ++ (queryPat ++ (t6 ++ (xPat ++ (t7 ++ (xPat ++ (t8 ++ (yPat
        ++ (t9 ++ (yPat ++ t10)))))))))))))))) := by
    refine skipsOver_append _ _ _ (noLbr_skips _ _ _ eT h2) ?_
    refine skipsOver_append _ _ _ (allSuffixClash_skips _ _ cTD) ?_
    refine skipsOver_append _ _ _ (noLbr_skips _ _ _ eT h3) ?_
    refine skipsOver_append _ _ _ (allSuffixClash_skips _ _ cTD) ?_
    refine skipsOver_append _ _ _ (noLbr_skips _ _ _ eT h4) ?_
    refine skipsOver_append _ _ _ (allSuffixClash_skips _ _ cTQ) ?_
    refine skipsOver_append _ _ _ (noLbr_skips _ _ _ eT h5) ?_
    refine skipsOver_append _ _ _ (allSuffixClash_skips _ _ cTQ) ?_
    refine skipsOver_append _ _ _ (noLbr_skips _ _ _ eT h6) ?_
    refine skipsOver_append _ _ _ (allSuffixClash_skips _ _ cTX) ?_
    refine skipsOver_append _ _ _ (noLbr_skips _ _ _ eT h7) ?_
    refine skipsOver_append _ _ _ (allSuffixClash_skips _ _ cTX) ?_
    refine skipsOver_append _ _ _ (noLbr_skips _ _ _ eT h8) ?_
    refine skipsOver_append _ _ _ (allSuffixClash_skips _ _ cTY) ?_
    refine skipsOver_append _ _ _ (noLbr_skips _ _ _ eT h9) ?_
    refine skipsOver_append _ _ _ (allSuffixClash_skips _ _ cTY) ?_
    exact noLbr_skips _ _ _ eT h10
  unfold instantiateTemplate
  simp only [List.append_assoc]
  rw [replaceAll_two titlePat neT vT hdT t0 t1 _
    (noLbr_skips _ _ _ eT h0) (noLbr_skips _ _ _ eT h1) skC]
  have sD : splitFirst dataPat
      (t0 ++ (vT ++ (t1 ++ (vT ++ (t2 ++ (dataPat ++ (t3 ++ (dataPat
        ++ (t4 ++ (queryPat ++ (t5 ++ (queryPat ++ (t6 ++ (xPat ++ (t7
        ++ (xPat ++ (t8 ++ (yPat ++ (t9 ++ (yPat ++ t10))))))))))))))))))))
      = some (t0 ++ (vT ++ (t1 ++ (vT ++ (t2 ++ [])))),
          t3 ++ (dataPat ++ (t4 ++ (queryPat ++ (t5 ++ (queryPat ++ (t6
            ++ (xPat ++ (t7 ++ (xPat ++ (t8 ++ (yPat ++ (t9 ++ (yPat
            ++ t10)))))))))))))) := by
    rw [splitFirst_skip dataPat t0 (noLbr_skips _ _ _ eD h0),
        splitFirst_skip dataPat vT (noLbr_skips _ _ _ eD hvT),
        splitFirst_skip dataPat t1 (noLbr_skips _ _ _ eD h1),
        splitFirst_skip dataPat vT (noLbr_skips _ _ _ eD hvT),
        splitFirst_skip dataPat t2 (noLbr_skips _ _ _ eD h2),
        splitFirst_self dataPat neD]
    rfl
  rw [jsReplaceFirst_eval dataPat vD _ _ _ sD hdD]
  have skQpre : SkipsOver queryPat
      (t0 ++ (vT ++ (t1 ++ (vT ++ (t2 ++ []))))) := by
    refine skipsOver_append _ _ _ (noLbr_skips _ _ _ eQ h0) ?_
    refine skipsOver_append _ _ _ (noLbr_skips _ _ _ eQ hvT) ?_
    refine skipsOver_append _ _ _ (noLbr_skips _ _ _ eQ h1) ?_
    refine skipsOver_append _ _ _ (noLbr_skips _ _ _ eQ hvT) ?_
    refine skipsOver_append _ _ _ (noLbr_skips _ _ _ eQ h2) ?_
    exact skipsOver_nil _
  have sQ : splitFirst queryPat
      ((t0 ++ (vT ++ (t1 ++ (vT ++ (t2 ++ []))))) ++ (vD ++ (t3
        ++ (dataPat ++ (t4 ++ (queryPat ++ (t5 ++ (queryPat ++ (t6
        ++ (xPat ++ (t7 ++ (xPat ++ (t8 ++ (yPat ++ (t9 ++ (yPat
        ++ t10))))))))))))))))
      = some ((t0 ++ (vT ++ (t1 ++ (vT ++ (t2 ++ []))))) ++ (vD ++ (t3
            ++ (dataPat ++ (t4 ++ [])))),
          t5 ++ (queryPat ++ (t6 ++ (xPat ++ (t7 ++ (xPat ++ (t8
            ++ (yPat ++ (t9 ++ (yPat ++ t10)))))))))) := by
    rw [splitFirst_skip queryPat _ skQpre,
        splitFirst_skip queryPat vD (noLbr_skips _ _ _ eQ hvD),
        splitFirst_skip queryPat t3 (noLbr_skips _ _ _ eQ h3),
        splitFirst_skip queryPat dataPat (allSuffixClash_skips _ _ cQD),
        splitFirst_skip queryPat t4 (noLbr_skips _ _ _ eQ h4),
        splitFirst_self queryPat neQ]
    rfl
  rw [jsReplaceFirst_eval queryPat vQ _ _ _ sQ hdQ]
  have skXpre : SkipsOver xPat
      (((t0 ++ (vT ++ (t1 ++ (vT ++ (t2 ++ []))))) ++ (vD ++ (t3
        ++ (dataPat ++ (t4 ++ [])))))) := by
    refine skipsOver_append _ _ _ ?_ ?_
    · refine skipsOver_append _ _ _ (noLbr_skips _ _ _ eX h0) ?_
      refine skipsOver_append _ _ _ (noLbr_skips _ _ _ eX hvT) ?_
      refine skipsOver_append _ _ _ (noLbr_skips _ _ _ eX h1) ?_
      refine skipsOver_append _ _ _ (noLbr_skips _ _ _ eX hvT) ?_
      refine skipsOver_append _ _ _ (noLbr_skips _ _ _ eX h2) ?_
      exact skipsOver_nil _
    · refine skipsOver_append _ _ _ (noLbr_skips _ _ _ eX hvD) ?_
      refine skipsOver_append _ _ _ (noLbr_skips _ _ _ eX h3) ?_
      refine skipsOver_append _ _ _ (allSuffixClash_skips _ _ cXD) ?_
      refine skipsOver_append _ _ _ (noLbr_skips _ _ _ eX h4) ?_
      exact skipsOver_nil _
  have sX : splitFirst xPat
      ((((t0 ++ (vT ++ (t1 ++ (vT ++ (t2 ++ []))))) ++ (vD ++ (t3
        ++ (dataPat ++ (t4 ++ []))))) ++ (vQ ++ (t5 ++ (queryPat ++ (t6
        ++ (xPat ++ (t7 ++ (xPat ++ (t8 ++ (yPat ++ (t9 ++ (yPat
        ++ t10)))))))))))))
      = some ((((t0 ++ (vT ++ (t1 ++ (vT ++ (t2 ++ []))))) ++ (vD ++ (t3
            ++ (dataPat ++ (t4 ++ []))))) ++ (vQ ++ (t5 ++ (queryPat
            ++ (t6 ++ []))))),
          t7 ++ (xPat ++ (t8 ++ (yPat ++ (t9 ++ (yPat ++ t10)))))) := by
    rw [splitFirst_skip xPat _ skXpre,
        splitFirst_skip xPat vQ (noLbr_skips _ _ _ eX hvQ),
        splitFirst_skip xPat t5 (noLbr_skips _ _ _ eX h5),
        splitFirst_skip xPat queryPat (allSuffixClash_skips _ _ cXQ),
        splitFirst_skip xPat t6 (noLbr_skips _ _ _ eX h6),
        splitFirst_self xPat neX]
    rfl
  rw [jsReplaceFirst_eval xPat vX _ _ _ sX hdX]
  have skYpre : SkipsOver yPat
      ((((t0 ++ (vT ++ (t1 ++ (vT ++ (t2 ++ []))))) ++ (vD ++ (t3
        ++ (dataPat ++ (t4 ++ []))))) ++ (vQ ++ (t5 ++ (queryPat ++ (t6
        ++ [])))))) := by
    refine skipsOver_append _ _ _ ?_ ?_
    · refine skipsOver_append _ _ _ ?_ ?_
      · refine skipsOver_append _ _ _ (noLbr_skips _ _ _ eY h0) ?_
        refine skipsOver_append _ _ _ (noLbr_skips _ _ _ eY hvT) ?_
        refine skipsOver_append _ _ _ (noLbr_skips _ _ _ eY h1) ?_
        refine skipsOver_append _ _ _ (noLbr_skips _ _ _ eY hvT) ?_
        refine skipsOver_append _ _ _ (noLbr_skips _ _ _ eY h2) ?_
        exact skipsOver_nil _
      · refine skipsOver_append _ _ _ (noLbr_skips _ _ _ eY hvD) ?_
        refine skipsOver_append _ _ _ (noLbr_skips _ _ _ eY h3) ?_
        refine skipsOver_append _ _ _ (allSuffixClash_skips _ _ cYD) ?_
        refine skipsOver_append _ _ _ (noLbr_skips _ _ _ eY h4) ?_
        exact skipsOver_nil _
    · refine skipsOver_append _ _ _ (noLbr_skips _ _ _ eY hvQ) ?_
      refine skipsOver_append _ _ _ (noLbr_skips _ _ _ eY h5) ?_
      refine skipsOver_append _ _ _ (allSuffixClash_skips _ _ cYQ) ?_
      refine skipsOver_append _ _ _ (noLbr_skips _ _ _ eY h6) ?_
      exact skipsOver_nil _
  have sY : splitFirst yPat
      (((((t0 ++ (vT ++ (t1 ++ (vT ++ (t2 ++ []))))) ++ (vD ++ (t3
        ++ (dataPat ++ (t4 ++ []))))) ++ (vQ ++ (t5 ++ (queryPat ++ (t6
        ++ []))))) ++ (vX ++ (t7 ++ (xPat ++ (t8 ++ (yPat ++ (t9
        ++ (yPat ++ t10)))))))))
      = some (((((t0 ++ (vT ++ (t1 ++ (vT ++ (t2 ++ []))))) ++ (vD
            ++ (t3 ++ (dataPat ++ (t4 ++ []))))) ++ (vQ ++ (t5
            ++ (queryPat ++ (t6 ++ []))))) ++ (vX ++ (t7 ++ (xPat
            ++ (t8 ++ []))))),
          t9 ++ (yPat ++ t10)) := by
    rw [splitFirst_skip yPat _ skYpre,
        splitFirst_skip yPat vX (noLbr_skips _ _ _ eY hvX),
        splitFirst_skip yPat t7 (noLbr_skips _ _ _ eY h7),
        splitFirst_skip yPat xPat (allSuffixClash_skips _ _ cYX),
        splitFirst_skip yPat t8 (noLbr_skips _ _ _ eY h8),
        splitFirst_self yPat neY]
    rfl
  rw [jsReplaceFirst_eval yPat vY _ _ _ sY hdY]
  simp [List.append_assoc]

/-- Witness for claim C9: a concrete template containing each placeholder
twice; both TITLE occurrences are replaced, while the second DATA, QUERY,
X_FIELD and Y_FIELD occurrences survive literally. -/
theorem c9_template_substitution_witness :
    instantiateTemplate
        ("A ".data ++ titlePat ++ " B ".data ++ titlePat ++ " C ".data
          ++ dataPat ++ " D ".data ++ dataPat ++ " E ".data ++ queryPat
          ++ " F ".data ++ queryPat ++ " G ".data ++ xPat ++ " H ".data
          ++ xPat ++ " I ".data ++ yPat ++ " J ".data ++ yPat ++ " K".data)
        "Revenue".data "[1,2]".data "SELECT 1".data "month".data
        "revenue".data
      = "A ".data ++ "Revenue".data ++ " B ".data ++ "Revenue".data
          ++ " C ".data ++ "[1,2]".data ++ " D ".data ++ dataPat
          ++ " E ".data ++ "SELECT 1".data ++ " F ".data ++ queryPat
          ++ " G ".data ++ "month".data ++ " H ".data ++ xPat
          ++ " I ".data ++ "revenue".data ++ " J ".data ++ yPat
          ++ " K".data :=
  c9_template_substitution "A ".data " B ".data " C ".data " D ".data
    " E ".data " F ".data " G ".data " H ".data " I ".data " J ".data
    " K".data "Revenue".data "[1,2]".data "SELECT 1".data "month".data
    "revenue".data (by decide) (by decide) (by decide) (by decide)
    (by decide) (by decide) (by decide) (by decide) (by decide) (by decide)
    (by decide) (by decide) (by decide) (by decide) (by decide) (by decide)
    (by decide) (by decide) (by decide) (by decide) (by decide)
